import Mathlib

/-!
Verification development for the tool-calling agent core of the
MCP-Powered-Autonomous-GitHub-Contributor-Agent repository.

The definitions below are a shallow embedding of
`services/agent_orchestrator/tool_agent.py` (classes `IssueTask` and
`ToolCallingAgent`) together with the payload construction of
`services/agent_orchestrator/mcp_client.py` (class `MCPClient`).

Modelling conventions:
- Python values that flow through the agent (JSON-like data) are the
  inductive `PyVal`; Python dicts are association lists preserving
  insertion order, as CPython dicts do.
- Fallible Python code is modelled in the `Except PyErr` monad; an
  `Except.error` value models an uncaught Python exception propagating
  out of the modelled code.
- The Anthropic HTTP API and the MCP HTTP server are external
  collaborators; they are modelled as oracle parameters (`script` for
  the provider, `post` for `MCPClient._post`).
-/

namespace Agent

/-- JSON-like Python values as produced by `json.loads` and consumed by
`json.dumps`. Floats are kept as their source lexeme: the agent never
computes with them, it only stores and re-serializes them. -/
inductive PyVal where
  | none : PyVal
  | bool : Bool → PyVal
  | int : Int → PyVal
  | float : String → PyVal
  | str : String → PyVal
  | list : List PyVal → PyVal
  | dict : List (String × PyVal) → PyVal

/-- Uncaught Python exceptions that the modelled code can raise.
`jsonDecodeError` stands for `json.JSONDecodeError` (its message and
position are irrelevant to the control flow and are not modelled). -/
inductive PyErr where
  | keyError (key : String)
  | typeError (msg : String)
  | attributeError (attr : String)
  | jsonDecodeError
deriving DecidableEq, Repr

/-- Lookup in an insertion-ordered dict (first binding of the key). -/
def lookupKV : List (String × PyVal) → String → Option PyVal
  | [], _ => Option.none
  | (k, v) :: rest, key => if k = key then Option.some v else lookupKV rest key

/-- Python `d[k] = v` on a dict: replace in place if the key exists,
otherwise append at the end (CPython insertion-order semantics). -/
def dictSet : List (String × PyVal) → String → PyVal → List (String × PyVal)
  | [], key, v => [(key, v)]
  | (k, w) :: rest, key, v =>
      if k = key then (k, v) :: rest else (k, w) :: dictSet rest key v

/-- Python `d.setdefault(k, v)`: insert at the end only when absent. -/
def dictSetdefault (kvs : List (String × PyVal)) (key : String) (v : PyVal) :
    List (String × PyVal) :=
  match lookupKV kvs key with
  | Option.some _ => kvs
  | Option.none => kvs ++ [(key, v)]

/-- Python subscript `v[k]` with a string key: `KeyError` when the key is
absent, `TypeError` when the value is not a dict. -/
def pySubscript (v : PyVal) (k : String) : Except PyErr PyVal :=
  match v with
  | PyVal.dict kvs =>
      match lookupKV kvs k with
      | Option.some x => Except.ok x
      | Option.none => Except.error (PyErr.keyError k)
  | _ => Except.error (PyErr.typeError "object is not subscriptable")

/-- Python `v.get(k)` (default `None`): `AttributeError` when `v` is not
a dict. -/
def pyGet (v : PyVal) (k : String) : Except PyErr PyVal :=
  match v with
  | PyVal.dict kvs => Except.ok ((lookupKV kvs k).getD PyVal.none)
  | _ => Except.error (PyErr.attributeError "get")

/-- Python `v.get(k, default)`: `AttributeError` when `v` is not a dict. -/
def pyGetD (v : PyVal) (k : String) (dflt : PyVal) : Except PyErr PyVal :=
  match v with
  | PyVal.dict kvs => Except.ok ((lookupKV kvs k).getD dflt)
  | _ => Except.error (PyErr.attributeError "get")

/-- Truthiness of a float lexeme, approximated by the presence of a
nonzero mantissa digit (or of NaN / Infinity, which are truthy). -/
def floatTruthy (lex : String) : Bool :=
  (lex.toList.takeWhile (fun c => !(c == 'e' || c == 'E'))).any
    (fun c => "123456789NI".toList.contains c)

/-- Python truthiness of a value (`if v:`). -/
def pyTruthy : PyVal → Bool
  | PyVal.none => false
  | PyVal.bool b => b
  | PyVal.int n => decide (n ≠ 0)
  | PyVal.float lex => floatTruthy lex
  | PyVal.str s => decide (s ≠ "")
  | PyVal.list xs => !xs.isEmpty
  | PyVal.dict kvs => !kvs.isEmpty

/-! String helpers modelling the Python `str` methods the agent uses. -/

/-- Characters stripped by Python `str.strip()` with no argument
(the ASCII whitespace characters; exotic unicode spaces are not used by
the agent). -/
def pyIsSpace (c : Char) : Bool :=
  c == ' ' || c == '\t' || c == '\n' || c == '\r' ||
    c == Char.ofNat 11 || c == Char.ofNat 12

/-- Python `str.strip()`. -/
def pyStrip (s : String) : String :=
  String.mk (((s.toList.dropWhile pyIsSpace).reverse.dropWhile pyIsSpace).reverse)

/-- Whether a line survives the `if ln.strip()` filter of
`_extract_summary_from_text`. -/
def nonBlank (ln : String) : Bool := !(pyStrip ln == "")

/-- Line-break characters recognized by Python `str.splitlines`
(restricted to the ASCII ones; `\r\n` is handled separately). -/
def isLineBreak (c : Char) : Bool :=
  c == '\n' || c == '\r' || c == Char.ofNat 11 || c == Char.ofNat 12 ||
    c == Char.ofNat 28 || c == Char.ofNat 29 || c == Char.ofNat 30

/-- Worker for `pySplitlines`: accumulates the current line (reversed). -/
def splitlinesAux : List Char → List Char → List String
  | [], acc => if acc.isEmpty then [] else [String.mk acc.reverse]
  | '\r' :: '\n' :: rest, acc => String.mk acc.reverse :: splitlinesAux rest []
  | c :: rest, acc =>
      if isLineBreak c then String.mk acc.reverse :: splitlinesAux rest []
      else splitlinesAux rest (c :: acc)

/-- Python `str.splitlines()`. -/
def pySplitlines (s : String) : List String := splitlinesAux s.toList []

/-!
A model of `json.loads` / `json.dumps` as used by the agent
(strings, the default CPython options: strict strings,
NaN / Infinity constants accepted, `, ` and `: ` separators and
`ensure_ascii` on output).
-/

/-- The opening brace character (written numerically). -/
def lbrace : Char := Char.ofNat 123

/-- The closing brace character (written numerically). -/
def rbrace : Char := Char.ofNat 125

/-- JSON insignificant whitespace. -/
def jsonWs (c : Char) : Bool := c == ' ' || c == '\t' || c == '\n' || c == '\r'

/-- Skip insignificant whitespace. -/
def jskipWs (cs : List Char) : List Char := cs.dropWhile jsonWs

/-- Value of a hexadecimal digit. -/
def hexVal (c : Char) : Option Nat :=
  if '0' ≤ c ∧ c ≤ '9' then Option.some (c.toNat - '0'.toNat)
  else if 'a' ≤ c ∧ c ≤ 'f' then Option.some (c.toNat - 'a'.toNat + 10)
  else if 'A' ≤ c ∧ c ≤ 'F' then Option.some (c.toNat - 'A'.toNat + 10)
  else Option.none

/-- Consume an expected literal continuation (for true/false/null and
the NaN / Infinity constants). -/
def dropLit : List Char → List Char → Option (List Char)
  | [], cs => Option.some cs
  | l :: ls, c :: cs => if l == c then dropLit ls cs else Option.none
  | _ :: _, [] => Option.none

/-- Body of a JSON string after the opening quote: returns the decoded
characters and the rest of the input after the closing quote. Strict
mode: raw control characters are rejected. -/
def parseStringBody : Nat → List Char → Option (List Char × List Char)
  | 0, _ => Option.none
  | _, [] => Option.none
  | fuel + 1, c :: cs =>
      if c == '"' then Option.some ([], cs)
      else if c == '\\' then
        match cs with
        | [] => Option.none
        | e :: cs2 =>
            let esc : Option (Char × List Char) :=
              if e == '"' then Option.some ('"', cs2)
              else if e == '\\' then Option.some ('\\', cs2)
              else if e == '/' then Option.some ('/', cs2)
              else if e == 'b' then Option.some (Char.ofNat 8, cs2)
              else if e == 'f' then Option.some (Char.ofNat 12, cs2)
              else if e == 'n' then Option.some ('\n', cs2)
              else if e == 'r' then Option.some ('\r', cs2)
              else if e == 't' then Option.some ('\t', cs2)
              else if e == 'u' then
                match cs2 with
                | h1 :: h2 :: h3 :: h4 :: cs3 =>
                    match hexVal h1, hexVal h2, hexVal h3, hexVal h4 with
                    | Option.some a, Option.some b, Option.some c2, Option.some d =>
                        Option.some (Char.ofNat (((a * 16 + b) * 16 + c2) * 16 + d), cs3)
                    | _, _, _, _ => Option.none
                | _ => Option.none
              else Option.none
            match esc with
            | Option.none => Option.none
            | Option.some (ch, rest) =>
                match parseStringBody fuel rest with
                | Option.some (out, rem) => Option.some (ch :: out, rem)
                | Option.none => Option.none
      else if c.toNat < 32 then Option.none
      else
        match parseStringBody fuel cs with
        | Option.some (out, rem) => Option.some (c :: out, rem)
        | Option.none => Option.none

/-- Numeric value of a digit list. -/
def digitsVal (ds : List Char) : Nat :=
  ds.foldl (fun acc c => acc * 10 + (c.toNat - '0'.toNat)) 0

/-- Parse a JSON number starting at the given input (first character is
a minus sign or a digit). Integer lexemes become `PyVal.int`; lexemes
with a fraction or exponent become `PyVal.float` holding the lexeme. -/
def parseNumber (cs : List Char) : Option (PyVal × List Char) :=
  let negAndRest : Bool × List Char :=
    match cs with
    | '-' :: r => (true, r)
    | _ => (false, cs)
  let neg := negAndRest.1
  let cs1 := negAndRest.2
  let ints := cs1.takeWhile Char.isDigit
  let r1 := cs1.dropWhile Char.isDigit
  if ints.isEmpty then Option.none
  else if ints.length > 1 && ints.headD '0' == '0' then Option.none
  else
    let fracAndRest : Bool × List Char :=
      match r1 with
      | '.' :: rr =>
          let ds := rr.takeWhile Char.isDigit
          if ds.isEmpty then (false, r1) else (true, rr.dropWhile Char.isDigit)
      | _ => (false, r1)
    let hasFrac := fracAndRest.1
    let r2 := fracAndRest.2
    let expAndRest : Bool × List Char :=
      match r2 with
      | e :: rr =>
          if e == 'e' || e == 'E' then
            let rr2 : List Char :=
              match rr with
              | s :: rr3 => if s == '+' || s == '-' then rr3 else rr
              | [] => rr
            let ds := rr2.takeWhile Char.isDigit
            if ds.isEmpty then (false, r2) else (true, rr2.dropWhile Char.isDigit)
          else (false, r2)
      | [] => (false, r2)
    let hasExp := expAndRest.1
    let rest := expAndRest.2
    if hasFrac || hasExp then
      Option.some (PyVal.float (String.mk (cs.take (cs.length - rest.length))), rest)
    else
      let n : Int := Int.ofNat (digitsVal ints)
      Option.some (PyVal.int (if neg then -n else n), r1)

mutual

/-- Parse one JSON value at the head of the input (whitespace already
skipped), returning the value and the unconsumed rest. -/
def parseValue : Nat → List Char → Option (PyVal × List Char)
  | 0, _ => Option.none
  | fuel + 1, cs =>
      match cs with
      | [] => Option.none
      | c :: rest =>
          if c == '"' then
            match parseStringBody (rest.length + 1) rest with
            | Option.some (out, rem) => Option.some (PyVal.str (String.mk out), rem)
            | Option.none => Option.none
          else if c == lbrace then
            let r1 := jskipWs rest
            match r1 with
            | d :: r2 =>
                if d == rbrace then Option.some (PyVal.dict [], r2)
                else parseMembers fuel [] r1
            | [] => Option.none
          else if c == '[' then
            let r1 := jskipWs rest
            match r1 with
            | d :: r2 =>
                if d == ']' then Option.some (PyVal.list [], r2)
                else parseElements fuel [] r1
            | [] => Option.none
          else if c == 't' then
            match dropLit ['r', 'u', 'e'] rest with
            | Option.some r => Option.some (PyVal.bool true, r)
            | Option.none => Option.none
          else if c == 'f' then
            match dropLit ['a', 'l', 's', 'e'] rest with
            | Option.some r => Option.some (PyVal.bool false, r)
            | Option.none => Option.none
          else if c == 'n' then
            match dropLit ['u', 'l', 'l'] rest with
            | Option.some r => Option.some (PyVal.none, r)
            | Option.none => Option.none
          else if c == 'N' then
            match dropLit ['a', 'N'] rest with
            | Option.some r => Option.some (PyVal.float "NaN", r)
            | Option.none => Option.none
          else if c == 'I' then
            match dropLit ['n', 'f', 'i', 'n', 'i', 't', 'y'] rest with
            | Option.some r => Option.some (PyVal.float "Infinity", r)
            | Option.none => Option.none
          else if c == '-' && rest.headD ' ' == 'I' then
            match dropLit ['n', 'f', 'i', 'n', 'i', 't', 'y'] (rest.drop 1) with
            | Option.some r => Option.some (PyVal.float "-Infinity", r)
            | Option.none => Option.none
          else if c == '-' || c.isDigit then parseNumber cs
          else Option.none

/-- Parse the members of a JSON object after the opening brace
(input begins at the first key). -/
def parseMembers : Nat → List (String × PyVal) → List Char →
    Option (PyVal × List Char)
  | 0, _, _ => Option.none
  | fuel + 1, acc, cs =>
      match cs with
      | [] => Option.none
      | c :: rest =>
          if c == '"' then
            match parseStringBody (rest.length + 1) rest with
            | Option.some (kout, r1) =>
                match jskipWs r1 with
                | d :: r3 =>
                    if d == ':' then
                      match parseValue fuel (jskipWs r3) with
                      | Option.some (v, r4) =>
                          let acc2 := dictSet acc (String.mk kout) v
                          match jskipWs r4 with
                          | e :: r6 =>
                              if e == ',' then parseMembers fuel acc2 (jskipWs r6)
                              else if e == rbrace then
                                Option.some (PyVal.dict acc2, r6)
                              else Option.none
                          | [] => Option.none
                      | Option.none => Option.none
                    else Option.none
                | [] => Option.none
            | Option.none => Option.none
          else Option.none

/-- Parse the elements of a JSON array after the opening bracket
(input begins at the first element). -/
def parseElements : Nat → List PyVal → List Char → Option (PyVal × List Char)
  | 0, _, _ => Option.none
  | fuel + 1, acc, cs =>
      match parseValue fuel (jskipWs cs) with
      | Option.some (v, r1) =>
          match jskipWs r1 with
          | e :: r2 =>
              if e == ',' then parseElements fuel (acc ++ [v]) (jskipWs r2)
              else if e == ']' then Option.some (PyVal.list (acc ++ [v]), r2)
              else Option.none
          | [] => Option.none
      | Option.none => Option.none

end

/-- Python `json.loads`: the whole input must be one JSON value
surrounded by optional whitespace; failure models `json.JSONDecodeError`. -/
def json_loads (s : String) : Except PyErr PyVal :=
  match parseValue (s.length + 1) (jskipWs s.toList) with
  | Option.some (v, rest) =>
      if (jskipWs rest).isEmpty then Except.ok v
      else Except.error PyErr.jsonDecodeError
  | Option.none => Except.error PyErr.jsonDecodeError

/-- Hexadecimal digit for `\u` escapes on output. -/
def hexDigit (n : Nat) : Char :=
  if n < 10 then Char.ofNat ('0'.toNat + n) else Char.ofNat ('a'.toNat + n - 10)

/-- Escape one character the way `json.dumps` does with the default
`ensure_ascii=True` (astral characters would need surrogate pairs,
which the agent never emits; they are escaped from their code point
here). -/
def escapeChar (c : Char) : List Char :=
  if c == '"' then ['\\', '"']
  else if c == '\\' then ['\\', '\\']
  else if c == '\n' then ['\\', 'n']
  else if c == '\t' then ['\\', 't']
  else if c == '\r' then ['\\', 'r']
  else if c == Char.ofNat 8 then ['\\', 'b']
  else if c == Char.ofNat 12 then ['\\', 'f']
  else if c.toNat < 32 || c.toNat > 126 then
    ['\\', 'u', hexDigit (c.toNat / 4096 % 16), hexDigit (c.toNat / 256 % 16),
      hexDigit (c.toNat / 16 % 16), hexDigit (c.toNat % 16)]
  else [c]

/-- Serialize a string with surrounding quotes, as `json.dumps` does. -/
def dumpsStr (s : String) : String :=
  "\"" ++ String.mk (s.toList.flatMap escapeChar) ++ "\""

mutual

/-- Python `json.dumps` with the default separators `, ` and `: `. -/
def json_dumps : PyVal → String
  | PyVal.none => "null"
  | PyVal.bool true => "true"
  | PyVal.bool false => "false"
  | PyVal.int n => toString n
  | PyVal.float lex => lex
  | PyVal.str s => dumpsStr s
  | PyVal.list xs => "[" ++ String.intercalate ", " (dumpsList xs) ++ "]"
  | PyVal.dict kvs =>
      "\x7b" ++ String.intercalate ", " (dumpsMembers kvs) ++ "\x7d"

/-- Serialize the elements of a list. -/
def dumpsList : List PyVal → List String
  | [] => []
  | v :: vs => json_dumps v :: dumpsList vs

/-- Serialize the members of a dict. -/
def dumpsMembers : List (String × PyVal) → List String
  | [] => []
  | (k, v) :: kvs => (dumpsStr k ++ ": " ++ json_dumps v) :: dumpsMembers kvs

end

/-!
The conversation data model of `ToolCallingAgent.run_issue_task`.
The Python code keeps OpenAI-style message dicts; each dict shape the
agent actually constructs or reads is one constructor here.
-/

/-- An OpenAI-style tool call as kept in assistant message dicts:
`\x7b"id": ..., "type": "function", "function": \x7b"name": ...,
"arguments": <JSON-encoded string>\x7d\x7d`. The constant
`"type": "function"` field is not carried. -/
structure ToolCall where
  id : String
  name : String
  arguments : String
deriving DecidableEq, Repr

/-- The message dicts appearing in the `messages` list of
`run_issue_task`:
`system` and `user` prompt dicts, the assistant message taken from the
provider response (line 115: optional content, optional tool_calls),
and the tool-result dicts appended at lines 129 to 134 (the
`tool_call_id`, `name` and serialized `content` fields). -/
inductive Msg where
  | system (content : String)
  | user (content : String)
  | assistant (content : Option String) (tool_calls : Option (List ToolCall))
  | tool (tool_call_id : String) (name : String) (content : String)
deriving DecidableEq, Repr

/-- One provider response as `run_issue_task` sees it after
`_llm_chat`: the single message of `response["choices"][0]`. -/
structure LLMResponse where
  content : Option String
  tool_calls : Option (List ToolCall)
deriving DecidableEq, Repr

/-- Python truthiness of the `tool_calls` entry (`if tool_calls:` at
line 118): false for `None` and for an empty list. -/
def pyTruthyCalls : Option (List ToolCall) → Bool
  | Option.none => false
  | Option.some tcs => !tcs.isEmpty

/-- Python `message.get("content") or ""` (line 139): `None` and the
empty string both yield the empty string. -/
def pyOrEmpty : Option String → String
  | Option.none => ""
  | Option.some s => s

/-- The entry of the LLM-visible tool schema for one tool, as built by
`ToolCallingAgent._tool_definitions`: the tool name, the property names
of its `input_schema`, and its `required` list. The prose description
strings are not carried. -/
structure ToolDef where
  name : String
  properties : List String
  required : List String
deriving DecidableEq, Repr

/-- `ToolCallingAgent._tool_definitions` (lines 216 to 323). -/
def tool_definitions : List ToolDef :=
  [⟨"clone_repo", ["url", "branch"], ["url", "branch"]⟩,
   ⟨"find_files", ["workdir", "glob_pattern"], ["workdir", "glob_pattern"]⟩,
   ⟨"read_file", ["workdir", "path"], ["workdir", "path"]⟩,
   ⟨"write_file", ["workdir", "path", "new_text"], ["workdir", "path", "new_text"]⟩,
   ⟨"create_branch", ["workdir", "base", "new_branch"],
     ["workdir", "base", "new_branch"]⟩,
   ⟨"commit_and_push", ["workdir", "branch", "message"],
     ["workdir", "branch", "message"]⟩,
   ⟨"create_pr", ["repo_url", "title", "body", "head_branch", "base_branch"],
     ["repo_url", "title", "head_branch", "base_branch"]⟩]

/-- `ToolCallingAgent._dispatch_tool` (lines 327 to 388) composed with
the payload construction of the `MCPClient` methods it calls
(`mcp_client.py` lines 33 to 92). The HTTP transport
`MCPClient._post` is the oracle `post` (path, JSON payload) and is the
only external effect; everything up to it is modelled exactly,
including the evaluation order of the Python argument expressions.
An `Except.error` models an uncaught exception (there is no
try/except anywhere in `_dispatch_tool`). -/
def dispatchTool (post : String → PyVal → Except PyErr PyVal)
    (name : String) (args : PyVal) : Except PyErr PyVal :=
  if name = "clone_repo" then do
    let url ← pySubscript args "url"
    let branch ← pyGet args "branch"
    let payload :=
      if pyTruthy branch then PyVal.dict [("url", url), ("branch", branch)]
      else PyVal.dict [("url", url)]
    post "/repo/clone" payload
  else if name = "find_files" then do
    let workdir ← pySubscript args "workdir"
    let pat ← pySubscript args "glob_pattern"
    let data ← post "/repo/find_files" (PyVal.dict [("workdir", workdir), ("glob", pat)])
    let files ← pyGetD data "files" (PyVal.list [])
    Except.ok (PyVal.dict [("files", files)])
  else if name = "read_file" then do
    let workdir ← pySubscript args "workdir"
    let path ← pySubscript args "path"
    let data ← post "/repo/read_file" (PyVal.dict [("workdir", workdir), ("path", path)])
    let text ← pySubscript data "text"
    Except.ok (PyVal.dict [("text", text)])
  else if name = "write_file" then do
    let workdir ← pySubscript args "workdir"
    let path ← pySubscript args "path"
    let newText ← pySubscript args "new_text"
    post "/repo/write_file"
      (PyVal.dict [("workdir", workdir), ("path", path), ("new_text", newText)])
  else if name = "create_branch" then do
    let workdir ← pySubscript args "workdir"
    let base ← pySubscript args "base"
    let newBranch ← pySubscript args "new_branch"
    post "/git/create_branch"
      (PyVal.dict [("workdir", workdir), ("base", base), ("new_branch", newBranch)])
  else if name = "commit_and_push" then do
    let workdir ← pySubscript args "workdir"
    let branch ← pySubscript args "branch"
    let message ← pySubscript args "message"
    post "/git/commit_push"
      (PyVal.dict [("workdir", workdir), ("branch", branch), ("message", message)])
  else if name = "create_pr" then do
    let repoUrl ← pySubscript args "repo_url"
    let title ← pySubscript args "title"
    let body ← pyGetD args "body" (PyVal.str "")
    let headBranch ← pySubscript args "head_branch"
    let baseBranch ← pySubscript args "base_branch"
    post "/github/create_pr"
      (PyVal.dict [("repo_url", repoUrl), ("title", title), ("body", body),
        ("head_branch", headBranch), ("base_branch", baseBranch)])
  else
    Except.ok (PyVal.dict [("error", PyVal.str ("Unknown tool: " ++ name))])

/-- The registered tool names of the dispatcher, in branch order. -/
def registeredToolNames : List String :=
  ["clone_repo", "find_files", "read_file", "write_file", "create_branch",
   "commit_and_push", "create_pr"]

/-- `ToolCallingAgent._extract_summary_from_text` (lines 518 to 541).
The `except json.JSONDecodeError` clause catches only a decode
failure; when the last line decodes to a non-dict value, the
`data.setdefault` call raises an uncaught `AttributeError`. -/
def extractSummary (content : String) : Except PyErr PyVal :=
  match ((pySplitlines content).filter nonBlank).getLast? with
  | Option.none =>
      Except.ok (PyVal.dict [("status", PyVal.str "no_action"),
        ("details", PyVal.str "Empty final response from LLM.")])
  | Option.some lastLn =>
      match json_loads (pyStrip lastLn) with
      | Except.error _ =>
          Except.ok (PyVal.dict [("status", PyVal.str "no_action"),
            ("details", PyVal.str "Could not parse final JSON summary."),
            ("raw_response", PyVal.str content)])
      | Except.ok (PyVal.dict kvs) =>
          Except.ok (PyVal.dict (dictSetdefault (dictSetdefault (dictSetdefault
            kvs "status" (PyVal.str "no_action")) "pr_number" PyVal.none)
            "pr_url" PyVal.none))
      | Except.ok _ => Except.error (PyErr.attributeError "setdefault")

/-- Decoding of one tool call argument string inside the loop
(line 124): `json.loads(arguments_str) if arguments_str else \x7b\x7d`. -/
def decodeArgs (s : String) : Except PyErr PyVal :=
  if s = "" then Except.ok (PyVal.dict []) else json_loads s

/-- The body of the inner `for tool_call in tool_calls` loop of
`run_issue_task` (lines 121 to 134): decode the arguments, dispatch,
and build the tool-result message appended for each call, in order.
An `Except.error` models an uncaught exception aborting the loop
mid-batch (the write-only `last_tool_results` dict of line 127 is
dead state and is not carried). -/
def processToolCalls (post : String → PyVal → Except PyErr PyVal) :
    List ToolCall → Except PyErr (List Msg)
  | [] => Except.ok []
  | tc :: rest => do
      let args ← decodeArgs tc.arguments
      let result ← dispatchTool post tc.name args
      let restMsgs ← processToolCalls post rest
      Except.ok (Msg.tool tc.id tc.name (json_dumps result) :: restMsgs)

/-- The summary returned when the step budget runs out
(lines 143 to 146). -/
def maxStepsSummary : PyVal :=
  PyVal.dict [("status", PyVal.str "max_steps_reached"),
    ("details", PyVal.str "Agent hit max_steps without finalizing.")]

/-- The `for step in range(self.max_steps)` loop of `run_issue_task`
(lines 112 to 146). `script i` is the provider response of round-trip
`i` (the message `_llm_chat` returns at that step); `fuel` is the
remaining step budget, `stepIdx` the current step index and `msgs` the
conversation built so far. The second component counts the provider
round-trips performed. On a terminal (no tool call) response the
assistant message is returned without being appended, exactly as in
the source. -/
def runFrom (script : Nat → LLMResponse)
    (post : String → PyVal → Except PyErr PyVal) :
    Nat → Nat → List Msg → Except PyErr PyVal × Nat
  | 0, _, _ => (Except.ok maxStepsSummary, 0)
  | fuel + 1, stepIdx, msgs =>
      let resp := script stepIdx
      if pyTruthyCalls resp.tool_calls then
        match processToolCalls post (resp.tool_calls.getD []) with
        | Except.error e => (Except.error e, 1)
        | Except.ok toolMsgs =>
            let r := runFrom script post fuel (stepIdx + 1)
              (msgs ++ Msg.assistant resp.content resp.tool_calls :: toolMsgs)
            (r.1, r.2 + 1)
      else
        (extractSummary (pyOrEmpty resp.content), 1)

/-- `ToolCallingAgent.run_issue_task` (lines 90 to 146) with the
provider (`_llm_chat` plus the Anthropic API) abstracted as `script`
and the MCP transport abstracted as `post`. The two constant prompt
messages built by `_initial_messages` are the `init` parameter: their
text never influences the control flow modelled here. -/
def run_issue_task (max_steps : Nat) (script : Nat → LLMResponse)
    (post : String → PyVal → Except PyErr PyVal) (init : List Msg) :
    Except PyErr PyVal × Nat :=
  runFrom script post max_steps 0 init

/-!
The outbound half of the protocol adapter: the conversion of the
internal message list to Anthropic Messages API format performed at
the top of `_llm_chat` (lines 409 to 465).
-/

/-- An Anthropic content block as built by `_llm_chat`. -/
inductive ABlock where
  | text (t : String)
  | tool_use (id : String) (name : String) (input : PyVal)
  | tool_result (tool_use_id : String) (content : String)

/-- One outbound Anthropic message: a role and its content blocks. -/
structure AMsg where
  role : String
  content : List ABlock

/-- The `tool_use` blocks built from the `tool_calls` of an assistant
message (lines 453 to 460); `json.loads` of an arguments string can
raise here exactly as in the loop. -/
def toolUseBlocks : List ToolCall → Except PyErr (List ABlock)
  | [] => Except.ok []
  | tc :: rest => do
      let input ← decodeArgs tc.arguments
      let bs ← toolUseBlocks rest
      Except.ok (ABlock.tool_use tc.id tc.name input :: bs)

/-- The `tool_use` blocks of an assistant message, guarded by the
truthiness test of line 453 (`if role == "assistant" and
msg.get("tool_calls"):`). -/
def assistantToolBlocks (tcs : Option (List ToolCall)) : Except PyErr (List ABlock) :=
  if pyTruthyCalls tcs then toolUseBlocks (tcs.getD []) else Except.ok []

/-- The text block added when the content entry is not `None`
(line 449: `if content is not None:`; note that an empty string still
yields a text block there). -/
def textBlocksOf : Option String → List ABlock
  | Option.some t => [ABlock.text t]
  | Option.none => []

/-- Conversion of one internal message (one iteration of the
`for msg in messages` loop, lines 418 to 465): the extracted system
text, if any, and the Anthropic messages appended. A tool message uses
its `tool_call_id` field (the `or msg.get("id", "")` fallback of line
430 never fires on messages of the `Msg` shape, which always carry the
field); when that identifier is empty the message is silently skipped
(`if tool_use_id:` at line 431). -/
def convertMsg : Msg → Except PyErr (Option String × List AMsg)
  | Msg.system c => Except.ok (Option.some c, [])
  | Msg.tool id _ content =>
      Except.ok (Option.none,
        if id = "" then []
        else [⟨"user", [ABlock.tool_result id content]⟩])
  | Msg.user c => Except.ok (Option.none, [⟨"user", [ABlock.text c]⟩])
  | Msg.assistant c tcs => do
      let tblocks ← assistantToolBlocks tcs
      Except.ok (Option.none, [⟨"assistant", textBlocksOf c ++ tblocks⟩])

/-- The whole outbound conversion (lines 409 to 465): the system text
passed separately to the API (the last system message wins) and the
`anthro_messages` list, in order. -/
def toAnthro : List Msg → Except PyErr (Option String × List AMsg)
  | [] => Except.ok (Option.none, [])
  | m :: rest => do
      let head ← convertMsg m
      let tail ← toAnthro rest
      Except.ok (tail.1 <|> head.1, head.2 ++ tail.2)

/-- The correlation identifiers of the `tool_result` blocks of a block
list, in order. -/
def blockResultIds : List ABlock → List String
  | [] => []
  | ABlock.tool_result id _ :: bs => id :: blockResultIds bs
  | _ :: bs => blockResultIds bs

/-- All correlation identifiers transmitted in an outbound request, in
order. -/
def sentToolResultIds (ams : List AMsg) : List String :=
  (ams.map (fun m => blockResultIds m.content)).flatten

/-- The identifiers of the tool messages of a conversation that carry a
non-empty `tool_call_id`, in order. -/
def toolMsgIds : List Msg → List String
  | [] => []
  | Msg.tool id _ _ :: rest =>
      if id = "" then toolMsgIds rest else id :: toolMsgIds rest
  | _ :: rest => toolMsgIds rest

/-! Concrete fixtures used to evaluate the theorems below. -/

/-- Trivial transport oracle for concrete evaluations: every MCP call
succeeds and returns `None`. The modelled dispatch faults below occur
before the transport is ever reached, so its answer is irrelevant. -/
def postNone : String → PyVal → Except PyErr PyVal :=
  fun _ _ => Except.ok PyVal.none

/-- A provider script whose every response requests `write_file`
without the required `new_text` argument. -/
def missingArgScript : Nat → LLMResponse :=
  fun _ => ⟨Option.some "",
    Option.some [⟨"call_1", "write_file",
      "\x7b\"workdir\": \"w\", \"path\": \"p\"\x7d"⟩]⟩

/-- A provider script whose every response carries one tool call with
an unregistered name and empty arguments: dispatch always returns an
error-tagged result and never raises, so the loop always continues. -/
def budgetScript : Nat → LLMResponse :=
  fun _ => ⟨Option.some "step", Option.some [⟨"id1", "nop_tool", ""⟩]⟩

/-- A two-call assistant turn whose calls both name unregistered tools:
every dispatch returns (an error-tagged result), none raises. -/
def twoCallBatch : List ToolCall :=
  [⟨"tcA", "alpha_tool", ""⟩, ⟨"tcB", "beta_tool", ""⟩]

/-- The tool-result messages the loop appends for `twoCallBatch`. -/
def twoCallMsgs : List Msg :=
  [Msg.tool "tcA" "alpha_tool" "\x7b\"error\": \"Unknown tool: alpha_tool\"\x7d",
   Msg.tool "tcB" "beta_tool" "\x7b\"error\": \"Unknown tool: beta_tool\"\x7d"]

/-- A provider script whose first response is the `twoCallBatch` turn. -/
def twoCallScript : Nat → LLMResponse :=
  fun _ => ⟨Option.some "batch", Option.some twoCallBatch⟩

/-- A provider script whose first response carries two tool calls, the
first with an undecodable arguments string, the second well-formed. -/
def badDecodeScript : Nat → LLMResponse :=
  fun _ => ⟨Option.some "working",
    Option.some [⟨"u1", "read_file", "\x7bnot json"⟩,
      ⟨"u2", "read_file", "\x7b\"workdir\": \"w\", \"path\": \"p\"\x7d"⟩]⟩

/-- A provider script whose response has no tool calls. -/
def terminalScript : Nat → LLMResponse :=
  fun _ => ⟨Option.some "done", Option.none⟩

/-- A conversation exercising every outbound-conversion case, including
a tool-result whose identifier matches no prior ToolCall (`ghost`) and
one with an empty identifier. -/
def mixedConversation : List Msg :=
  [Msg.system "sys",
   Msg.user "hello",
   Msg.assistant (Option.some "calling")
     (Option.some [⟨"i1", "read_file",
       "\x7b\"workdir\": \"w\", \"path\": \"p\"\x7d"⟩]),
   Msg.tool "i1" "read_file" "\x7b\"text\": \"data\"\x7d",
   Msg.tool "" "read_file" "lost",
   Msg.tool "ghost" "write_file" "\x7b\x7d"]

/-- The outbound Anthropic messages produced for `mixedConversation`. -/
def mixedConversationOut : List AMsg :=
  [⟨"user", [ABlock.text "hello"]⟩,
   ⟨"assistant", [ABlock.text "calling",
     ABlock.tool_use "i1" "read_file"
       (PyVal.dict [("workdir", PyVal.str "w"), ("path", PyVal.str "p")])]⟩,
   ⟨"user", [ABlock.tool_result "i1" "\x7b\"text\": \"data\"\x7d"]⟩,
   ⟨"user", [ABlock.tool_result "ghost" "\x7b\x7d"]⟩]

/-! Helper lemmas about the loop and the outbound conversion. -/

/-- The loop never performs more provider round-trips than its fuel. -/
theorem runFrom_count_le (script : Nat → LLMResponse)
    (post : String → PyVal → Except PyErr PyVal) :
    ∀ fuel stepIdx msgs, (runFrom script post fuel stepIdx msgs).2 ≤ fuel := by
  intro fuel
  induction fuel with
  | zero => intro stepIdx msgs; simp [runFrom]
  | succ n ih =>
      intro stepIdx msgs
      simp only [runFrom]
      cases h : pyTruthyCalls (script stepIdx).tool_calls with
      | false => simp
      | true =>
          simp only [if_true]
          cases hp : processToolCalls post ((script stepIdx).tool_calls.getD []) with
          | error e => simp
          | ok tms =>
              simp only []
              have := ih (stepIdx + 1)
                (msgs ++ Msg.assistant (script stepIdx).content
                  (script stepIdx).tool_calls :: tms)
              omega

/-- When every scripted response within the budget carries tool calls
and all of them decode and dispatch without an uncaught exception, the
loop consumes its whole budget and returns the max-steps summary. -/
theorem runFrom_exhaust (script : Nat → LLMResponse)
    (post : String → PyVal → Except PyErr PyVal) :
    ∀ fuel stepIdx msgs,
    (∀ i, i < fuel → pyTruthyCalls (script (stepIdx + i)).tool_calls = true ∧
      ∃ tms, processToolCalls post ((script (stepIdx + i)).tool_calls.getD []) =
        Except.ok tms) →
    runFrom script post fuel stepIdx msgs = (Except.ok maxStepsSummary, fuel) := by
  intro fuel
  induction fuel with
  | zero => intro stepIdx msgs _; simp [runFrom]
  | succ n ih =>
      intro stepIdx msgs h
      obtain ⟨ht, tms, htms⟩ := h 0 (by omega)
      rw [Nat.add_zero] at ht htms
      have hrec := ih (stepIdx + 1)
        (msgs ++ Msg.assistant (script stepIdx).content
          (script stepIdx).tool_calls :: tms)
        (by
          intro i hi
          have hsh := h (i + 1) (by omega)
          have e : stepIdx + (i + 1) = stepIdx + 1 + i := by omega
          rw [e] at hsh
          exact hsh)
      simp only [runFrom, ht, if_true, htms, hrec]

/-- A successful batch produces, for each call in order, the decoded
arguments, a returned dispatch result, and the corresponding
tool-result message. -/
theorem processToolCalls_forall2 (post : String → PyVal → Except PyErr PyVal) :
    ∀ (tcs : List ToolCall) (toolMsgs : List Msg),
    processToolCalls post tcs = Except.ok toolMsgs →
    List.Forall₂ (fun tc m => ∃ args r, decodeArgs tc.arguments = Except.ok args ∧
      dispatchTool post tc.name args = Except.ok r ∧
      m = Msg.tool tc.id tc.name (json_dumps r)) tcs toolMsgs := by
  intro tcs
  induction tcs with
  | nil =>
      intro toolMsgs h
      simp only [processToolCalls] at h
      injection h with h
      rw [← h]
      exact List.Forall₂.nil
  | cons tc rest ih =>
      intro toolMsgs h
      simp only [processToolCalls] at h
      cases hd : decodeArgs tc.arguments with
      | error e => rw [hd] at h; exact absurd h (by simp [Bind.bind, Except.bind])
      | ok args =>
          rw [hd] at h
          simp only [Bind.bind, Except.bind] at h
          cases hr : dispatchTool post tc.name args with
          | error e => rw [hr] at h; exact absurd h (by simp)
          | ok r =>
              rw [hr] at h
              cases hrest : processToolCalls post rest with
              | error e => rw [hrest] at h; exact absurd h (by simp)
              | ok restMsgs =>
                  rw [hrest] at h
                  injection h with h
                  rw [← h]
                  exact List.Forall₂.cons ⟨args, r, hd, hr, rfl⟩ (ih restMsgs hrest)

/-- A step whose batch succeeds appends the assistant message followed
by the batch results, then continues with one more round-trip counted. -/
theorem runFrom_batch (post : String → PyVal → Except PyErr PyVal)
    (tcs : List ToolCall) (toolMsgs : List Msg)
    (h : processToolCalls post tcs = Except.ok toolMsgs)
    (script : Nat → LLMResponse) (fuel stepIdx : Nat) (msgs : List Msg)
    (hsc : (script stepIdx).tool_calls = Option.some tcs) (hne : tcs ≠ []) :
    runFrom script post (fuel + 1) stepIdx msgs =
      ((runFrom script post fuel (stepIdx + 1)
          (msgs ++ Msg.assistant (script stepIdx).content
            (Option.some tcs) :: toolMsgs)).1,
       (runFrom script post fuel (stepIdx + 1)
          (msgs ++ Msg.assistant (script stepIdx).content
            (Option.some tcs) :: toolMsgs)).2 + 1) := by
  have htr : pyTruthyCalls (Option.some tcs) = true := by
    simp [pyTruthyCalls, hne]
  simp only [runFrom, hsc, htr, if_true, Option.getD_some, h]

/-- Converted `tool_use` blocks carry no correlation identifiers. -/
theorem toolUseBlocks_no_results :
    ∀ (tcs : List ToolCall) (bs : List ABlock),
    toolUseBlocks tcs = Except.ok bs → blockResultIds bs = [] := by
  intro tcs
  induction tcs with
  | nil =>
      intro bs h
      simp only [toolUseBlocks] at h
      injection h with h
      rw [← h]; rfl
  | cons tc rest ih =>
      intro bs h
      simp only [toolUseBlocks] at h
      cases hd : decodeArgs tc.arguments with
      | error e => rw [hd] at h; exact absurd h (by simp [Bind.bind, Except.bind])
      | ok input =>
          rw [hd] at h
          simp only [Bind.bind, Except.bind] at h
          cases hrest : toolUseBlocks rest with
          | error e => rw [hrest] at h; exact absurd h (by simp)
          | ok bs2 =>
              rw [hrest] at h
              injection h with h
              rw [← h]
              simp only [blockResultIds]
              exact ih bs2 hrest

/-- Transmitted identifiers distribute over message concatenation. -/
theorem sent_append (a b : List AMsg) :
    sentToolResultIds (a ++ b) = sentToolResultIds a ++ sentToolResultIds b := by
  simp [sentToolResultIds]

/-- Correlation identifiers distribute over block concatenation. -/
theorem blockResultIds_append (a b : List ABlock) :
    blockResultIds (a ++ b) = blockResultIds a ++ blockResultIds b := by
  induction a with
  | nil => rfl
  | cons x xs ih =>
      cases x with
      | text t => simpa [blockResultIds] using ih
      | tool_use i n inp => simpa [blockResultIds] using ih
      | tool_result i c => simp [blockResultIds, ih]

/-! The claims. -/

/-- C1 (amended): a `write_file` invocation whose arguments lack
`new_text` does not produce an error-tagged ToolResult: the dispatcher
reads the key unconditionally, so an uncaught `KeyError` propagates out
of the dispatcher, and a run whose provider requests such a call aborts
with that exception instead of appending a result and continuing. -/
theorem c1_missing_argument_crashes :
    (∀ (post : String → PyVal → Except PyErr PyVal)
      (kvs : List (String × PyVal)) (w p : PyVal),
      lookupKV kvs "workdir" = Option.some w →
      lookupKV kvs "path" = Option.some p →
      lookupKV kvs "new_text" = Option.none →
      dispatchTool post "write_file" (PyVal.dict kvs) =
        Except.error (PyErr.keyError "new_text"))
    ∧ (∀ (post : String → PyVal → Except PyErr PyVal) (N : Nat) (init : List Msg),
      0 < N →
      (run_issue_task N missingArgScript post init).1 =
        Except.error (PyErr.keyError "new_text")) := by
  constructor
  · intro post kvs w p hw hp hn
    simp [dispatchTool, pySubscript, hw, hp, hn, Bind.bind, Except.bind]
  · intro post N init hN
    cases N with
    | zero => exact absurd hN (by omega)
    | succ n => rfl

/-- C1 witness: the dispatch conjunct evaluated at a concrete argument
mapping and the run conjunct at budget 3. -/
theorem c1_missing_argument_crashes_witness :
    dispatchTool postNone "write_file"
      (PyVal.dict [("workdir", PyVal.str "wd"), ("path", PyVal.str "README.md")]) =
      Except.error (PyErr.keyError "new_text")
    ∧ (run_issue_task 3 missingArgScript postNone []).1 =
      Except.error (PyErr.keyError "new_text") :=
  ⟨c1_missing_argument_crashes.1 postNone _ (PyVal.str "wd") (PyVal.str "README.md")
      rfl rfl rfl,
   c1_missing_argument_crashes.2 postNone 3 [] (by omega)⟩

/-- C1 counterexample: invoking `write_file` with no `new_text`
argument yields an uncaught `KeyError` (modelled as `Except.error`),
not an error-tagged ToolResult, so the claimed append-and-continue
behaviour is impossible. -/
theorem c1_missing_argument_counterexample :
    dispatchTool postNone "write_file"
      (PyVal.dict [("workdir", PyVal.str "w"), ("path", PyVal.str "p")]) =
      Except.error (PyErr.keyError "new_text") := rfl

/-- C2 (amended): `run_issue_task` performs at most `N` provider
round-trips for any script; and when every response within the budget
carries tool calls that all decode and dispatch without an uncaught
exception, it returns the `max_steps_reached` outcome after exactly
`N` round-trips. (When a dispatch raises, the run instead aborts with
that exception; see the counterexample.) -/
theorem c2_step_bound (script : Nat → LLMResponse)
    (post : String → PyVal → Except PyErr PyVal) :
    (∀ (N : Nat) (init : List Msg), (run_issue_task N script post init).2 ≤ N)
    ∧ (∀ (N : Nat) (init : List Msg),
      (∀ i, i < N → pyTruthyCalls (script i).tool_calls = true ∧
        ∃ tms, processToolCalls post ((script i).tool_calls.getD []) =
          Except.ok tms) →
      run_issue_task N script post init = (Except.ok maxStepsSummary, N)) := by
  constructor
  · intro N init
    exact runFrom_count_le script post N 0 init
  · intro N init h
    refine runFrom_exhaust script post N 0 init ?_
    intro i hi
    rw [Nat.zero_add]
    exact h i hi

/-- C2 witness: with a script of never-terminal responses whose single
tool call always dispatches (to an error-tagged result), budget 2 is
consumed exactly and the outcome is `max_steps_reached`. -/
theorem c2_step_bound_witness :
    (run_issue_task 2 budgetScript postNone []).2 ≤ 2
    ∧ run_issue_task 2 budgetScript postNone [] = (Except.ok maxStepsSummary, 2) :=
  ⟨(c2_step_bound budgetScript postNone).1 2 [],
   (c2_step_bound budgetScript postNone).2 2 [] (fun _ _ => ⟨rfl, ⟨_, rfl⟩⟩)⟩

/-- C2 counterexample: with budget 1 and a script whose only response
does carry tool calls (so no zero-tool-call response occurs within the
budget), the run returns an uncaught `KeyError`, not an outcome with
status `max_steps_reached`. -/
theorem c2_step_bound_counterexample :
    pyTruthyCalls (missingArgScript 0).tool_calls = true
    ∧ (run_issue_task 1 missingArgScript postNone []).1 =
      Except.error (PyErr.keyError "new_text") := ⟨rfl, rfl⟩

/-- C3 (amended): when every call of an assistant turn decodes and
dispatches without an uncaught exception, the Controller produces one
tool-result message per call, in the order received, each carrying the
identifier and name of its originating call and the serialized
dispatch result; the step appends the assistant message immediately
followed by those results, in order, and continues. (If a call raises,
the batch is cut short and the run aborts; see the counterexample.) -/
theorem c3_batch_order (post : String → PyVal → Except PyErr PyVal)
    (tcs : List ToolCall) (toolMsgs : List Msg)
    (h : processToolCalls post tcs = Except.ok toolMsgs) :
    List.Forall₂ (fun tc m => ∃ args r, decodeArgs tc.arguments = Except.ok args ∧
      dispatchTool post tc.name args = Except.ok r ∧
      m = Msg.tool tc.id tc.name (json_dumps r)) tcs toolMsgs
    ∧ (∀ (script : Nat → LLMResponse) (fuel stepIdx : Nat) (msgs : List Msg),
      (script stepIdx).tool_calls = Option.some tcs → tcs ≠ [] →
      runFrom script post (fuel + 1) stepIdx msgs =
        ((runFrom script post fuel (stepIdx + 1)
            (msgs ++ Msg.assistant (script stepIdx).content
              (Option.some tcs) :: toolMsgs)).1,
         (runFrom script post fuel (stepIdx + 1)
            (msgs ++ Msg.assistant (script stepIdx).content
              (Option.some tcs) :: toolMsgs)).2 + 1)) := by
  constructor
  · exact processToolCalls_forall2 post tcs toolMsgs h
  · intro script fuel stepIdx msgs hsc hne
    exact runFrom_batch post tcs toolMsgs h script fuel stepIdx msgs hsc hne

/-- C3 witness: a concrete two-call turn whose dispatches both return,
evaluated through the loop at step 0. -/
theorem c3_batch_order_witness :
    List.Forall₂ (fun tc m => ∃ args r, decodeArgs tc.arguments = Except.ok args ∧
      dispatchTool postNone tc.name args = Except.ok r ∧
      m = Msg.tool tc.id tc.name (json_dumps r)) twoCallBatch twoCallMsgs
    ∧ runFrom twoCallScript postNone 1 0 [] =
      ((runFrom twoCallScript postNone 0 1
          ([] ++ Msg.assistant (Option.some "batch")
            (Option.some twoCallBatch) :: twoCallMsgs)).1,
       (runFrom twoCallScript postNone 0 1
          ([] ++ Msg.assistant (Option.some "batch")
            (Option.some twoCallBatch) :: twoCallMsgs)).2 + 1) :=
  ⟨(c3_batch_order postNone twoCallBatch twoCallMsgs rfl).1,
   (c3_batch_order postNone twoCallBatch twoCallMsgs rfl).2 twoCallScript 0 0 []
     rfl (by simp [twoCallBatch])⟩

/-- C3 counterexample: in a turn of two calls whose first lacks a
required argument, the second call is never dispatched and no
tool-result message at all is produced: the batch aborts with the
uncaught exception, and so does the whole run. -/
theorem c3_batch_order_counterexample :
    processToolCalls postNone
      [⟨"cA", "write_file", "\x7b\"workdir\": \"w\", \"path\": \"p\"\x7d"⟩,
       ⟨"cB", "find_files", "\x7b\"workdir\": \"w\", \"glob_pattern\": \"*\"\x7d"⟩] =
      Except.error (PyErr.keyError "new_text") := rfl

/-- C4: a response with zero tool calls (absent or empty sequence)
terminates the loop at once, whatever fuel remains and whatever the
conversation contains: exactly one further round-trip is counted and
the returned value is the Outcome Extractor applied to the assistant
text with absent text treated as empty. -/
theorem c4_no_tool_termination (script : Nat → LLMResponse)
    (post : String → PyVal → Except PyErr PyVal) :
    (∀ (fuel stepIdx : Nat) (msgs : List Msg), 0 < fuel →
      pyTruthyCalls (script stepIdx).tool_calls = false →
      runFrom script post fuel stepIdx msgs =
        (extractSummary (pyOrEmpty (script stepIdx).content), 1))
    ∧ (∀ (N : Nat) (init : List Msg), 0 < N →
      pyTruthyCalls (script 0).tool_calls = false →
      run_issue_task N script post init =
        (extractSummary (pyOrEmpty (script 0).content), 1)) := by
  constructor
  · intro fuel stepIdx msgs hfuel hcalls
    cases fuel with
    | zero => exact absurd hfuel (by omega)
    | succ n => simp only [runFrom, hcalls, Bool.false_eq_true, if_false]
  · intro N init hN hcalls
    cases N with
    | zero => exact absurd hN (by omega)
    | succ n => simp only [run_issue_task, runFrom, hcalls, Bool.false_eq_true, if_false]

/-- C4 witness: a terminal response with budget 5 still standing. -/
theorem c4_no_tool_termination_witness :
    run_issue_task 5 terminalScript postNone [] =
      (extractSummary (pyOrEmpty ((terminalScript 0).content)), 1) :=
  (c4_no_tool_termination terminalScript postNone).2 5 [] (by omega) rfl

/-- C5 (amended): there is no per-invocation decode fault. When the
arguments string of one invocation cannot be decoded, `json.loads`
raises an uncaught `JSONDecodeError` inside the Controller loop: the
remaining invocations of the same response are never dispatched, no
text is processed, and the run aborts with the exception. -/
theorem c5_decode_fault_aborts :
    (∀ (post : String → PyVal → Except PyErr PyVal) (tc : ToolCall)
      (rest : List ToolCall) (e : PyErr),
      tc.arguments ≠ "" → json_loads tc.arguments = Except.error e →
      processToolCalls post (tc :: rest) = Except.error e)
    ∧ (∀ (post : String → PyVal → Except PyErr PyVal) (N : Nat) (init : List Msg),
      0 < N →
      (run_issue_task N badDecodeScript post init).1 =
        Except.error PyErr.jsonDecodeError) := by
  constructor
  · intro post tc rest e hne hdec
    simp only [processToolCalls, decodeArgs, if_neg hne, hdec, Bind.bind, Except.bind]
  · intro post N init hN
    cases N with
    | zero => exact absurd hN (by omega)
    | succ n => rfl

/-- C5 witness: both conjuncts at concrete inputs (a single-call batch
with undecodable arguments, and the two-call script with budget 1). -/
theorem c5_decode_fault_aborts_witness :
    processToolCalls postNone [⟨"w9", "find_files", "not json"⟩] =
      Except.error PyErr.jsonDecodeError
    ∧ (run_issue_task 1 badDecodeScript postNone []).1 =
      Except.error PyErr.jsonDecodeError :=
  ⟨c5_decode_fault_aborts.1 postNone ⟨"w9", "find_files", "not json"⟩ []
      PyErr.jsonDecodeError (by decide) rfl,
   c5_decode_fault_aborts.2 postNone 1 [] (by omega)⟩

/-- C5 counterexample: a response with two tool invocations whose first
has undecodable arguments makes the whole run abort with an uncaught
`JSONDecodeError`: the second invocation and the response text are not
processed, contradicting the claimed per-invocation isolation. -/
theorem c5_decode_fault_counterexample :
    processToolCalls postNone
      [⟨"u1", "read_file", "\x7bnot json"⟩,
       ⟨"u2", "read_file", "\x7b\"workdir\": \"w\", \"path\": \"p\"\x7d"⟩] =
      Except.error PyErr.jsonDecodeError
    ∧ (run_issue_task 3 badDecodeScript postNone []).1 =
      Except.error PyErr.jsonDecodeError := ⟨rfl, rfl⟩

/-- C6 (amended): the outbound conversion performs no correlation
check: for every conversation it converts, the transmitted tool-result
identifiers are exactly the `tool_call_id` fields of its tool messages
with a non-empty identifier, in order, whether or not they match a
prior ToolCall (identifiers are neither lost nor duplicated for those
messages; a tool message with an empty identifier is silently dropped,
and a conversation with an unmatched identifier is sent rather than
rejected; see the counterexample). -/
theorem c6_outbound_identifiers :
    ∀ (msgs : List Msg) (sys : Option String) (ams : List AMsg),
    toAnthro msgs = Except.ok (sys, ams) →
    sentToolResultIds ams = toolMsgIds msgs := by
  intro msgs
  induction msgs with
  | nil =>
      intro sys ams h
      simp only [toAnthro] at h
      injection h with h
      have h2 : ([] : List AMsg) = ams := congrArg Prod.snd h
      rw [← h2]; rfl
  | cons m rest ih =>
      intro sys ams h
      simp only [toAnthro] at h
      cases hh : convertMsg m with
      | error e => rw [hh] at h; exact absurd h (by simp [Bind.bind, Except.bind])
      | ok hd =>
          rw [hh] at h
          simp only [Bind.bind, Except.bind] at h
          cases ht : toAnthro rest with
          | error e => rw [ht] at h; exact absurd h (by simp)
          | ok tl =>
              rw [ht] at h
              injection h with h
              have hams : ams = hd.2 ++ tl.2 := by
                have := congrArg Prod.snd h; simpa using this.symm
              rw [hams, sent_append, ih tl.1 tl.2 (by rw [ht])]
              cases m with
              | system c =>
                  simp only [convertMsg] at hh
                  injection hh with hh
                  have h2 : hd.2 = [] := (congrArg Prod.snd hh).symm
                  rw [h2]
                  rfl
              | user c =>
                  simp only [convertMsg] at hh
                  injection hh with hh
                  have h2 : hd.2 = [⟨"user", [ABlock.text c]⟩] :=
                    (congrArg Prod.snd hh).symm
                  rw [h2]
                  rfl
              | tool id nm c =>
                  simp only [convertMsg] at hh
                  injection hh with hh
                  have h2 : hd.2 = if id = "" then []
                      else [⟨"user", [ABlock.tool_result id c]⟩] :=
                    (congrArg Prod.snd hh).symm
                  rw [h2]
                  by_cases hid : id = ""
                  · simp [hid, sentToolResultIds, toolMsgIds]
                  · simp [hid, sentToolResultIds, toolMsgIds, blockResultIds]
              | assistant c tcs =>
                  simp only [convertMsg] at hh
                  cases htb : assistantToolBlocks tcs with
                  | error e =>
                      rw [htb] at hh
                      exact absurd hh (by simp [Bind.bind, Except.bind])
                  | ok tbs =>
                      rw [htb] at hh
                      simp only [Bind.bind, Except.bind] at hh
                      injection hh with hh
                      have h2 : hd.2 = [⟨"assistant", textBlocksOf c ++ tbs⟩] :=
                        (congrArg Prod.snd hh).symm
                      have htbs : blockResultIds tbs = [] := by
                        by_cases htr : pyTruthyCalls tcs = true
                        · rw [assistantToolBlocks, if_pos htr] at htb
                          exact toolUseBlocks_no_results _ _ htb
                        · rw [assistantToolBlocks, if_neg htr] at htb
                          injection htb with htb
                          rw [← htb]; rfl
                      rw [h2]
                      cases c with
                      | none =>
                          simp [sentToolResultIds, toolMsgIds, htbs, textBlocksOf]
                      | some t =>
                          simp [sentToolResultIds, toolMsgIds, blockResultIds_append,
                            htbs, blockResultIds, textBlocksOf]

/-- C6 witness: a conversation exercising every conversion case; its
transmitted identifiers are exactly the non-empty tool message
identifiers, in order. -/
theorem c6_outbound_identifiers_witness :
    sentToolResultIds mixedConversationOut = toolMsgIds mixedConversation :=
  c6_outbound_identifiers mixedConversation (Option.some "sys")
    mixedConversationOut rfl

/-- C6 counterexample: a conversation whose only message is a
tool-result with identifier `ghost`, matching no prior ToolCall, is not
rejected: the adapter converts it into an outbound request containing a
tool-result block that carries `ghost`. -/
theorem c6_outbound_identifiers_counterexample :
    toAnthro [Msg.tool "ghost" "read_file" "\x7b\"text\": \"x\"\x7d"] =
      Except.ok (Option.none,
        [⟨"user", [ABlock.tool_result "ghost" "\x7b\"text\": \"x\"\x7d"]⟩]) := rfl

/-- C7: dispatching any unregistered tool name with any arguments value
never raises: it returns the error-tagged ToolResult whose error text
is `Unknown tool: <name>`. -/
theorem c7_unknown_tool_safe (name : String) (h : name ∉ registeredToolNames)
    (post : String → PyVal → Except PyErr PyVal) (args : PyVal) :
    dispatchTool post name args =
      Except.ok (PyVal.dict [("error", PyVal.str ("Unknown tool: " ++ name))]) := by
  simp only [registeredToolNames, List.mem_cons, List.not_mem_nil, or_false,
    not_or] at h
  obtain ⟨h1, h2, h3, h4, h5, h6, h7⟩ := h
  simp only [dispatchTool, if_neg h1, if_neg h2, if_neg h3, if_neg h4, if_neg h5,
    if_neg h6, if_neg h7]

/-- C7 witness: the unregistered name `frobnicate` with empty
arguments. -/
theorem c7_unknown_tool_safe_witness :
    dispatchTool postNone "frobnicate" (PyVal.dict []) =
      Except.ok (PyVal.dict [("error", PyVal.str "Unknown tool: frobnicate")]) :=
  c7_unknown_tool_safe "frobnicate" (by decide) postNone (PyVal.dict [])

/-- C8 (amended): when the last non-blank line of the final text fails
to decode as JSON at all, the extractor never throws and returns
exactly the `no_action` outcome with the parse-failure detail and the
full raw text. (When the line decodes to a JSON value that is not a
key/value object, the extractor instead raises an uncaught
`AttributeError` on `data.setdefault`; see the counterexample.) -/
theorem c8_unparsable_summary (content lastLn : String) (e : PyErr)
    (hlast : ((pySplitlines content).filter nonBlank).getLast? = Option.some lastLn)
    (hdec : json_loads (pyStrip lastLn) = Except.error e) :
    extractSummary content = Except.ok (PyVal.dict [("status", PyVal.str "no_action"),
      ("details", PyVal.str "Could not parse final JSON summary."),
      ("raw_response", PyVal.str content)]) := by
  simp only [extractSummary, hlast, hdec]

/-- C8 witness: the final text `Done.\nnot json` degrades to the
`no_action` outcome preserving the raw text. -/
theorem c8_unparsable_summary_witness :
    extractSummary "Done.\nnot json" =
      Except.ok (PyVal.dict [("status", PyVal.str "no_action"),
        ("details", PyVal.str "Could not parse final JSON summary."),
        ("raw_response", PyVal.str "Done.\nnot json")]) :=
  c8_unparsable_summary "Done.\nnot json" "not json" PyErr.jsonDecodeError rfl rfl

/-- C8 counterexample: the final text `42` has a last non-blank line
that is not decodable as a key/value object, yet the extractor does not
return the claimed outcome: `json.loads` succeeds with the integer 42
and the `data.setdefault` call raises an uncaught `AttributeError`. -/
theorem c8_unparsable_summary_counterexample :
    extractSummary "42" = Except.error (PyErr.attributeError "setdefault") := rfl

/-- C9: when the last non-blank line decodes to a key/value object, the
extractor returns that object with each of the defaults `status`
(`no_action`), `pr_number` (`None`) and `pr_url` (`None`) inserted only
when absent, decoded fields winning. -/
theorem c9_merge_defaults (content lastLn : String) (kvs : List (String × PyVal))
    (hlast : ((pySplitlines content).filter nonBlank).getLast? = Option.some lastLn)
    (hdec : json_loads (pyStrip lastLn) = Except.ok (PyVal.dict kvs)) :
    extractSummary content = Except.ok (PyVal.dict (dictSetdefault (dictSetdefault
      (dictSetdefault kvs "status" (PyVal.str "no_action")) "pr_number" PyVal.none)
      "pr_url" PyVal.none)) := by
  simp only [extractSummary, hlast, hdec]

/-- C9 witness: the literal terminal line of the claim yields exactly
its four fields, in order, with no `details` key added. -/
theorem c9_merge_defaults_witness :
    extractSummary
        ("All done.\n\x7b\"status\": \"pr_created\", \"branch\": \"b1\", " ++
          "\"pr_number\": 7, \"pr_url\": \"https://x/7\"\x7d") =
      Except.ok (PyVal.dict [("status", PyVal.str "pr_created"),
        ("branch", PyVal.str "b1"), ("pr_number", PyVal.int 7),
        ("pr_url", PyVal.str "https://x/7")]) :=
  c9_merge_defaults
    ("All done.\n\x7b\"status\": \"pr_created\", \"branch\": \"b1\", " ++
      "\"pr_number\": 7, \"pr_url\": \"https://x/7\"\x7d")
    ("\x7b\"status\": \"pr_created\", \"branch\": \"b1\", " ++
      "\"pr_number\": 7, \"pr_url\": \"https://x/7\"\x7d")
    [("status", PyVal.str "pr_created"), ("branch", PyVal.str "b1"),
      ("pr_number", PyVal.int 7), ("pr_url", PyVal.str "https://x/7")]
    rfl rfl

/-- C10: dispatching `clone_repo` with a `url` but no `branch` produces
no missing-argument error: the branch is read with `args.get`, found
falsy, and omitted from the executor payload — even though the
advertised schema declares `branch` required; every other tool reads
each of its declared-required arguments unconditionally, so a missing
one always surfaces as a `KeyError`. -/
theorem c10_clone_branch_optional :
    (∀ (post : String → PyVal → Except PyErr PyVal)
      (kvs : List (String × PyVal)) (u : PyVal),
      lookupKV kvs "url" = Option.some u →
      lookupKV kvs "branch" = Option.none →
      dispatchTool post "clone_repo" (PyVal.dict kvs) =
        post "/repo/clone" (PyVal.dict [("url", u)]))
    ∧ tool_definitions.find? (fun td => td.name == "clone_repo") =
      Option.some ⟨"clone_repo", ["url", "branch"], ["url", "branch"]⟩
    ∧ (∀ td ∈ tool_definitions, td.name ≠ "clone_repo" →
      ∀ (post : String → PyVal → Except PyErr PyVal)
        (kvs : List (String × PyVal)) (r : String),
      r ∈ td.required → lookupKV kvs r = Option.none →
      ∃ k, lookupKV kvs k = Option.none ∧
        dispatchTool post td.name (PyVal.dict kvs) =
          Except.error (PyErr.keyError k)) := by
  refine ⟨?_, rfl, ?_⟩
  · intro post kvs u hu hb
    simp [dispatchTool, pySubscript, pyGet, hu, hb, Bind.bind, Except.bind, pyTruthy]
  · intro td htd hne post kvs r hr hlook
    simp only [tool_definitions, List.mem_cons, List.not_mem_nil, or_false] at htd
    rcases htd with rfl | rfl | rfl | rfl | rfl | rfl | rfl
    · exact absurd rfl hne
    · cases hw : lookupKV kvs "workdir" with
      | none => exact ⟨"workdir", hw,
          by simp [dispatchTool, pySubscript, hw, Bind.bind, Except.bind]⟩
      | some w =>
          simp only [List.mem_cons, List.not_mem_nil, or_false] at hr
          rcases hr with rfl | rfl
          · rw [hw] at hlook; exact absurd hlook (by simp)
          · exact ⟨"glob_pattern", hlook,
              by simp [dispatchTool, pySubscript, hw, hlook, Bind.bind, Except.bind]⟩
    · cases hw : lookupKV kvs "workdir" with
      | none => exact ⟨"workdir", hw,
          by simp [dispatchTool, pySubscript, hw, Bind.bind, Except.bind]⟩
      | some w =>
          simp only [List.mem_cons, List.not_mem_nil, or_false] at hr
          rcases hr with rfl | rfl
          · rw [hw] at hlook; exact absurd hlook (by simp)
          · exact ⟨"path", hlook,
              by simp [dispatchTool, pySubscript, hw, hlook, Bind.bind, Except.bind]⟩
    · cases hw : lookupKV kvs "workdir" with
      | none => exact ⟨"workdir", hw,
          by simp [dispatchTool, pySubscript, hw, Bind.bind, Except.bind]⟩
      | some w =>
          cases hp : lookupKV kvs "path" with
          | none => exact ⟨"path", hp,
              by simp [dispatchTool, pySubscript, hw, hp, Bind.bind, Except.bind]⟩
          | some p =>
              simp only [List.mem_cons, List.not_mem_nil, or_false] at hr
              rcases hr with rfl | rfl | rfl
              · rw [hw] at hlook; exact absurd hlook (by simp)
              · rw [hp] at hlook; exact absurd hlook (by simp)
              · exact ⟨"new_text", hlook,
                  by simp [dispatchTool, pySubscript, hw, hp, hlook,
                    Bind.bind, Except.bind]⟩
    · cases hw : lookupKV kvs "workdir" with
      | none => exact ⟨"workdir", hw,
          by simp [dispatchTool, pySubscript, hw, Bind.bind, Except.bind]⟩
      | some w =>
          cases hp : lookupKV kvs "base" with
          | none => exact ⟨"base", hp,
              by simp [dispatchTool, pySubscript, hw, hp, Bind.bind, Except.bind]⟩
          | some p =>
              simp only [List.mem_cons, List.not_mem_nil, or_false] at hr
              rcases hr with rfl | rfl | rfl
              · rw [hw] at hlook; exact absurd hlook (by simp)
              · rw [hp] at hlook; exact absurd hlook (by simp)
              · exact ⟨"new_branch", hlook,
                  by simp [dispatchTool, pySubscript, hw, hp, hlook,
                    Bind.bind, Except.bind]⟩
    · cases hw : lookupKV kvs "workdir" with
      | none => exact ⟨"workdir", hw,
          by simp [dispatchTool, pySubscript, hw, Bind.bind, Except.bind]⟩
      | some w =>
          cases hp : lookupKV kvs "branch" with
          | none => exact ⟨"branch", hp,
              by simp [dispatchTool, pySubscript, hw, hp, Bind.bind, Except.bind]⟩
          | some p =>
              simp only [List.mem_cons, List.not_mem_nil, or_false] at hr
              rcases hr with rfl | rfl | rfl
              · rw [hw] at hlook; exact absurd hlook (by simp)
              · rw [hp] at hlook; exact absurd hlook (by simp)
              · exact ⟨"message", hlook,
                  by simp [dispatchTool, pySubscript, hw, hp, hlook,
                    Bind.bind, Except.bind]⟩
    · cases hw : lookupKV kvs "repo_url" with
      | none => exact ⟨"repo_url", hw,
          by simp [dispatchTool, pySubscript, hw, Bind.bind, Except.bind]⟩
      | some w =>
          cases hp : lookupKV kvs "title" with
          | none => exact ⟨"title", hp,
              by simp [dispatchTool, pySubscript, hp, hw, Bind.bind, Except.bind]⟩
          | some p =>
              cases hh : lookupKV kvs "head_branch" with
              | none => exact ⟨"head_branch", hh,
                  by simp [dispatchTool, pySubscript, pyGetD, hw, hp, hh,
                    Bind.bind, Except.bind]⟩
              | some hb =>
                  simp only [List.mem_cons, List.not_mem_nil, or_false] at hr
                  rcases hr with rfl | rfl | rfl | rfl
                  · rw [hw] at hlook; exact absurd hlook (by simp)
                  · rw [hp] at hlook; exact absurd hlook (by simp)
                  · rw [hh] at hlook; exact absurd hlook (by simp)
                  · exact ⟨"base_branch", hlook,
                      by simp [dispatchTool, pySubscript, pyGetD, hw, hp, hh, hlook,
                        Bind.bind, Except.bind]⟩

/-- C10 witness: `clone_repo` with only a `url` reaches the executor
with a branch-free payload, while `commit_and_push` missing `branch`
raises a `KeyError`. -/
theorem c10_clone_branch_optional_witness :
    dispatchTool postNone "clone_repo"
      (PyVal.dict [("url", PyVal.str "https://example.com/r.git")]) =
      postNone "/repo/clone" (PyVal.dict [("url", PyVal.str "https://example.com/r.git")])
    ∧ (∃ k, lookupKV [("workdir", PyVal.str "w")] k = Option.none ∧
      dispatchTool postNone "commit_and_push" (PyVal.dict [("workdir", PyVal.str "w")]) =
        Except.error (PyErr.keyError k)) :=
  ⟨c10_clone_branch_optional.1 postNone _ _ rfl rfl,
   c10_clone_branch_optional.2.2
     ⟨"commit_and_push", ["workdir", "branch", "message"],
       ["workdir", "branch", "message"]⟩
     (by decide) (by decide) postNone _ "branch" (by decide) rfl⟩

end Agent

